import Mathlib

/-!
Verification development for the SatIntel TLE parsing-and-geometry pipeline.

The Go sources embedded here:
- ConstructTLE and the TLE record (osint package, TLE parser file);
- the caller-side parse-failure classification used by TLETextFile and
  TLEPlainString (tleparser.go);
- CalculateSGP4Position, CalculateSGP4PositionWithObserver and
  CalculateSGP4Positions (sgp4.go).

Modelling conventions:
- Go strings are modelled through their character lists. Go indexes and
  slices strings by byte; for the ASCII inputs of the TLE domain the two
  coincide. Lengths are character counts.
- Go float64 values are modelled as exact rationals. strconv.ParseFloat
  is modelled as exact decimal parsing into a rational (the decimal
  subset: sign, digits, optional fraction, optional decimal exponent;
  the Inf/NaN spellings, hex floats and underscore separators of the
  full Go syntax are treated as parse failures, which the embedded code
  maps to the zero default exactly as the source discards the error).
- strconv.Atoi is modelled with its Go result convention: syntax errors
  yield 0, out-of-range values are clamped to the int64 bounds (the
  source discards the error and keeps the returned value in both cases).
- Go time.Time instants and time.Duration values are both modelled as
  integer nanosecond counts; t.After(u) is u < t, t.Add(d) is t + d,
  t.Unix() is floor division by 10^9.
- The external go-satellite propagation library (TLEToSat, Propagate,
  JDay, ThetaG_JD, ECIToLLA, LLAToECI, ECIToLookAngles), math.Sqrt and
  the library constants RAD2DEG and DEG2RAD are external collaborators
  whose numerical internals are out of scope; they are abstracted as an
  environment record of opaque total functions. TLEToSat composed with
  the civil-time decomposition and Propagate is a single function of
  the two lines and the instant, since the source always composes them.
-/

/-- The Unicode white-space predicate used by Go (unicode.IsSpace):
the Latin-1 spaces and the White_Space code points above Latin-1. -/
def isGoSpace (c : Char) : Bool :=
  (0x09 ≤ c.toNat && c.toNat ≤ 0x0D) || c.toNat == 0x20 || c.toNat == 0x85 ||
  c.toNat == 0xA0 || c.toNat == 0x1680 ||
  (0x2000 ≤ c.toNat && c.toNat ≤ 0x200A) || c.toNat == 0x2028 ||
  c.toNat == 0x2029 || c.toNat == 0x202F || c.toNat == 0x205F ||
  c.toNat == 0x3000

/-- Accumulator worker for strings.Fields: splits a character list at
white space, never emitting an empty token. -/
def fieldsAux : List Char → List Char → List (List Char)
  | [], acc => if acc.isEmpty then [] else [acc.reverse]
  | c :: cs, acc =>
    if isGoSpace c then
      if acc.isEmpty then fieldsAux cs [] else acc.reverse :: fieldsAux cs []
    else fieldsAux cs (c :: acc)

/-- Go strings.Fields: the white-space separated tokens of a string. -/
def gfields (s : String) : List String :=
  (fieldsAux s.toList []).map List.asString

/-- Go len on a string (character count; equals the byte count on ASCII). -/
def glen (s : String) : Nat := s.toList.length

/-- Go slice expression s[a:b] (character positions; total version used
on guarded accesses). -/
def gslice (s : String) (a b : Nat) : String :=
  ((s.toList.drop a).take (b - a)).asString

/-- Go strings.HasPrefix. -/
def gStartsWith (s p : String) : Bool := p.toList.isPrefixOf s.toList

/-- Go strings.TrimSpace: strips leading and trailing white space. -/
def gTrimSpace (s : String) : String :=
  ((((s.toList.dropWhile isGoSpace).reverse).dropWhile isGoSpace).reverse).asString

/-- Numeric value of a digit list, most significant first. -/
def digitsVal (ds : List Char) : Nat :=
  ds.foldl (fun acc c => acc * 10 + (c.toNat - 48)) 0

/-- Largest int64, the clamp bound of strconv.Atoi on range errors. -/
def maxI64 : Int := 9223372036854775807

/-- Smallest int64, the clamp bound of strconv.Atoi on range errors. -/
def minI64 : Int := -9223372036854775808

/-- Go strconv.Atoi with the error discarded, as every call site of the
source does: syntax errors give 0, out-of-range values are clamped. -/
def goAtoi (s : String) : Int :=
  match s.toList with
  | [] => 0
  | c :: cs =>
    let p : Bool × List Char :=
      if c = '-' then (true, cs) else if c = '+' then (false, cs) else (false, c :: cs)
    let ds := p.2
    if ds ≠ [] ∧ ds.all Char.isDigit then
      let v : Int := if p.1 then -(digitsVal ds : Int) else (digitsVal ds : Int)
      if v > maxI64 then maxI64 else if v < minI64 then minI64 else v
    else 0

/-- Ten to an integer power, as a rational. -/
def powTen (e : Nat) : ℚ := (10 : ℚ) ^ e

/-- Go strconv.ParseFloat on the decimal subset, as an exact rational;
none when the string is not a decimal literal. -/
def goParseFloat? (s : String) : Option ℚ :=
  let cs := s.toList
  let p0 : Bool × List Char :=
    match cs with
    | '-' :: r => (true, r)
    | '+' :: r => (false, r)
    | r => (false, r)
  let neg := p0.1
  let cs1 := p0.2
  let ip := cs1.takeWhile Char.isDigit
  let cs2 := cs1.dropWhile Char.isDigit
  let pf : List Char × List Char :=
    match cs2 with
    | '.' :: r => (r.takeWhile Char.isDigit, r.dropWhile Char.isDigit)
    | r => ([], r)
  let fp := pf.1
  let cs3 := pf.2
  let hasDot : Bool := match cs2 with | '.' :: _ => true | _ => false
  if ip.isEmpty ∧ (fp.isEmpty ∨ ¬ hasDot) then none
  else
    let mant : ℚ := (digitsVal ip : ℚ) + (digitsVal fp : ℚ) / powTen fp.length
    let signed : ℚ := if neg then -mant else mant
    match cs3 with
    | [] => some signed
    | c :: r =>
      if c = 'e' ∨ c = 'E' then
        let pe : Bool × List Char :=
          match r with
          | '-' :: rr => (true, rr)
          | '+' :: rr => (false, rr)
          | rr => (false, rr)
        let ed := pe.2.takeWhile Char.isDigit
        let rest := pe.2.dropWhile Char.isDigit
        if ed.isEmpty ∨ ¬ rest.isEmpty then none
        else some (if pe.1 then signed / powTen (digitsVal ed) else signed * powTen (digitsVal ed))
      else none

/-- Go strconv.ParseFloat with the error discarded, as every call site
of the source does: parse failures give the zero default. -/
def goParseFloat0 (s : String) : ℚ := (goParseFloat? s).getD 0

/-- The TLE record of the source (field names kept from the Go struct;
float64 fields become rationals, int fields become integers). -/
structure TLE where
  CommonName : String
  SatelliteCatalogNumber : Int
  ElsetClassificiation : String
  InternationalDesignator : String
  ElementSetEpoch : ℚ
  FirstDerivativeMeanMotion : ℚ
  SecondDerivativeMeanMotion : String
  BDragTerm : String
  ElementSetType : Int
  ElementNumber : Int
  ChecksumOne : Int
  OrbitInclination : ℚ
  RightAscension : ℚ
  Eccentrcity : ℚ
  Perigee : ℚ
  MeanAnamoly : ℚ
  MeanMotion : ℚ
  RevolutionNumber : Int
  ChecksumTwo : Int
deriving Repr, DecidableEq

/-- The zero value TLE{} of Go: all numeric fields zero, strings empty. -/
def emptyTLE : TLE :=
  { CommonName := "", SatelliteCatalogNumber := 0, ElsetClassificiation := "",
    InternationalDesignator := "", ElementSetEpoch := 0,
    FirstDerivativeMeanMotion := 0, SecondDerivativeMeanMotion := "",
    BDragTerm := "", ElementSetType := 0, ElementNumber := 0, ChecksumOne := 0,
    OrbitInclination := 0, RightAscension := 0, Eccentrcity := 0, Perigee := 0,
    MeanAnamoly := 0, MeanMotion := 0, RevolutionNumber := 0, ChecksumTwo := 0 }

/-- The record ConstructTLE returns when a token-count check fails: the
zero record with only the common name set. -/
def failTLE (one : String) : TLE := { emptyTLE with CommonName := one }

/-- Line-1 token 1 block of ConstructTLE: catalog number and elset
classification letter. -/
def catalogStep (firstArr : List String) (tle : TLE) : TLE :=
  if 1 < firstArr.length ∧ 0 < glen (firstArr.getD 1 "") then
    let catalogStr := firstArr.getD 1 ""
    if 1 < glen catalogStr then
      { tle with
          SatelliteCatalogNumber := goAtoi (gslice catalogStr 0 (glen catalogStr - 1)),
          ElsetClassificiation := gslice catalogStr (glen catalogStr - 1) (glen catalogStr) }
    else { tle with SatelliteCatalogNumber := goAtoi catalogStr }
  else tle

/-- Line-1 token 2 block of ConstructTLE: international designator. -/
def designatorStep (firstArr : List String) (tle : TLE) : TLE :=
  if 2 < firstArr.length then
    { tle with InternationalDesignator := firstArr.getD 2 "" }
  else tle

/-- Line-1 token 3 block of ConstructTLE: element set epoch. -/
def epochStep (firstArr : List String) (tle : TLE) : TLE :=
  if 3 < firstArr.length then
    { tle with ElementSetEpoch := goParseFloat0 (firstArr.getD 3 "") }
  else tle

/-- Line-1 token 4 block of ConstructTLE: first derivative of mean motion. -/
def firstDerivStep (firstArr : List String) (tle : TLE) : TLE :=
  if 4 < firstArr.length then
    { tle with FirstDerivativeMeanMotion := goParseFloat0 (firstArr.getD 4 "") }
  else tle

/-- Line-1 token 5 block of ConstructTLE: second derivative, raw string. -/
def secondDerivStep (firstArr : List String) (tle : TLE) : TLE :=
  if 5 < firstArr.length then
    { tle with SecondDerivativeMeanMotion := firstArr.getD 5 "" }
  else tle

/-- Line-1 token 6 block of ConstructTLE: drag term, raw string. -/
def bdragStep (firstArr : List String) (tle : TLE) : TLE :=
  if 6 < firstArr.length then
    { tle with BDragTerm := firstArr.getD 6 "" }
  else tle

/-- Line-1 token 7 block of ConstructTLE: element set type. -/
def elsetTypeStep (firstArr : List String) (tle : TLE) : TLE :=
  if 7 < firstArr.length then
    { tle with ElementSetType := goAtoi (firstArr.getD 7 "") }
  else tle

/-- Line-1 token 8 block of ConstructTLE: element number plus the line-1
checksum digit. -/
def elementNumberStep (firstArr : List String) (tle : TLE) : TLE :=
  if 8 < firstArr.length then
    let lastField := firstArr.getD 8 ""
    if 1 < glen lastField then
      { tle with
          ElementNumber := goAtoi (gslice lastField 0 (glen lastField - 1)),
          ChecksumOne := goAtoi (gslice lastField (glen lastField - 1) (glen lastField)) }
    else if 0 < glen lastField then { tle with ElementNumber := goAtoi lastField }
    else tle
  else tle

/-- Line-2 token 1 block of ConstructTLE: catalog number, overwriting the
line-1 value. -/
def catalogOverwriteStep (secondArr : List String) (tle : TLE) : TLE :=
  if 1 < secondArr.length then
    { tle with SatelliteCatalogNumber := goAtoi (secondArr.getD 1 "") }
  else tle

/-- Line-2 token 2 block of ConstructTLE: orbit inclination. -/
def inclinationStep (secondArr : List String) (tle : TLE) : TLE :=
  if 2 < secondArr.length then
    { tle with OrbitInclination := goParseFloat0 (secondArr.getD 2 "") }
  else tle

/-- Line-2 token 3 block of ConstructTLE: right ascension. -/
def raanStep (secondArr : List String) (tle : TLE) : TLE :=
  if 3 < secondArr.length then
    { tle with RightAscension := goParseFloat0 (secondArr.getD 3 "") }
  else tle

/-- Line-2 token 4 block of ConstructTLE: eccentricity with the implied
leading zero and decimal point. -/
def eccentricityStep (secondArr : List String) (tle : TLE) : TLE :=
  if 4 < secondArr.length then
    { tle with Eccentrcity := goParseFloat0 ("0." ++ secondArr.getD 4 "") }
  else tle

/-- Line-2 token 5 block of ConstructTLE: argument of perigee. -/
def perigeeStep (secondArr : List String) (tle : TLE) : TLE :=
  if 5 < secondArr.length then
    { tle with Perigee := goParseFloat0 (secondArr.getD 5 "") }
  else tle

/-- Line-2 token 6 block of ConstructTLE: mean anomaly. -/
def meanAnomalyStep (secondArr : List String) (tle : TLE) : TLE :=
  if 6 < secondArr.length then
    { tle with MeanAnamoly := goParseFloat0 (secondArr.getD 6 "") }
  else tle

/-- Line-2 token 7 block of ConstructTLE: the combined mean-motion,
revolution-number and line-2 checksum micro-format. -/
def meanMotionStep (secondArr : List String) (tle : TLE) : TLE :=
  if 7 < secondArr.length then
    let meanMotionStr := secondArr.getD 7 ""
    let tle1 :=
      if 11 ≤ glen meanMotionStr then
        let tleA := { tle with MeanMotion := goParseFloat0 (gslice meanMotionStr 0 11) }
        if 16 ≤ glen meanMotionStr then
          { tleA with RevolutionNumber := goAtoi (gslice meanMotionStr 11 16) }
        else tleA
      else { tle with MeanMotion := goParseFloat0 meanMotionStr }
    if 0 < glen meanMotionStr then
      { tle1 with
          ChecksumTwo := goAtoi (gslice meanMotionStr (glen meanMotionStr - 1) (glen meanMotionStr)) }
    else tle1
  else tle

/-- ConstructTLE of the source: tokenizes the two lines, applies the two
token-count checks, then the per-field extraction blocks in source order. -/
def ConstructTLE (one two three : String) : TLE :=
  let tle := { emptyTLE with CommonName := one }
  let firstArr := gfields two
  let secondArr := gfields three
  if firstArr.length < 4 then tle
  else if secondArr.length < 3 then tle
  else
    meanMotionStep secondArr (meanAnomalyStep secondArr (perigeeStep secondArr
      (eccentricityStep secondArr (raanStep secondArr (inclinationStep secondArr
        (catalogOverwriteStep secondArr (elementNumberStep firstArr
          (elsetTypeStep firstArr (bdragStep firstArr (secondDerivStep firstArr
            (firstDerivStep firstArr (epochStep firstArr
              (designatorStep firstArr (catalogStep firstArr tle))))))))))))))

/-- The caller-side classification shared verbatim by TLETextFile and
TLEPlainString: token-count check first, then the three-field heuristic
(catalog number, designator and epoch all zero or empty). -/
def parsingFailed (lineOne lineTwo : String) (output : TLE) : Bool :=
  if (gfields lineOne).length < 4 ∨ (gfields lineTwo).length < 3 then true
  else if output.SatelliteCatalogNumber = 0 ∧ output.InternationalDesignator = "" ∧
      output.ElementSetEpoch = 0 then true
  else false

/-- A three-component inertial vector of the external library (components
modelled as rationals). -/
structure Vec3 where
  x : ℚ
  y : ℚ
  z : ℚ
deriving Repr, DecidableEq

/-- The LatLong pair of the external library (radians). -/
structure LatLong where
  Latitude : ℚ
  Longitude : ℚ
deriving Repr, DecidableEq

/-- The look-angle triple returned by the external ECIToLookAngles. -/
structure LookAnglesLib where
  Az : ℚ
  El : ℚ
  Rg : ℚ
deriving Repr, DecidableEq

/-- SGPPosition of the source: geodetic position, velocity magnitude and
Unix timestamp. -/
structure SGPPosition where
  Latitude : ℚ
  Longitude : ℚ
  Altitude : ℚ
  Velocity : ℚ
  Timestamp : Int
deriving Repr, DecidableEq

/-- ObserverPosition of the source (altitude in meters). -/
structure ObserverPosition where
  Latitude : ℚ
  Longitude : ℚ
  Altitude : ℚ
deriving Repr, DecidableEq

/-- LookAngles of the source (degrees, kilometers). -/
structure LookAngles where
  Azimuth : ℚ
  Elevation : ℚ
  Range : ℚ
  RangeRate : ℚ
deriving Repr, DecidableEq

/-- SGP4PositionResult of the source: position plus look angles. -/
structure SGP4PositionResult where
  Position : SGPPosition
  Angles : LookAngles
deriving Repr, DecidableEq

/-- The external collaborators of sgp4.go, abstracted: the go-satellite
library calls, math.Sqrt, and the library angle-conversion constants.
propagate is TLEToSat composed with the civil-time decomposition of the
target instant and Propagate, which is the only way the source uses them. -/
structure Sgp4Env where
  propagate : String → String → Int → Vec3 × Vec3
  jday : Int → ℚ
  thetaG : ℚ → ℚ
  eciToLLA : Vec3 → ℚ → ℚ × ℚ × LatLong
  llaToECI : LatLong → ℚ → ℚ → Vec3
  eciToLookAngles : Vec3 → LatLong → ℚ → ℚ → LookAnglesLib
  sqrtQ : ℚ → ℚ
  RAD2DEG : ℚ
  DEG2RAD : ℚ

/-- The error values produced by sgp4.go, one constructor per message;
failedAt is the wrapping of a per-sample error by the sampler. -/
inductive SgpErr where
  | tleTooShort : SgpErr
  | badLine1 : SgpErr
  | badLine2 : SgpErr
  | startAfterEnd : SgpErr
  | intervalNotPositive : SgpErr
  | failedAt : Int → SgpErr → SgpErr
deriving Repr, DecidableEq

/-- Go t.Unix(): seconds since the epoch of a nanosecond instant. -/
def goUnix (t : Int) : Int := t.fdiv 1000000000

/-- CalculateSGP4Position of the source: trim, the 69-character check,
the two prefix checks, then the propagation and frame-conversion calls. -/
def CalculateSGP4Position (env : Sgp4Env) (line1 line2 : String) (targetTime : Int) :
    Except SgpErr SGPPosition :=
  let l1 := gTrimSpace line1
  let l2 := gTrimSpace line2
  if glen l1 < 69 ∨ glen l2 < 69 then .error .tleTooShort
  else if ¬ (gStartsWith l1 "1 " = true) then .error .badLine1
  else if ¬ (gStartsWith l2 "2 " = true) then .error .badLine2
  else
    let pv := env.propagate l1 l2 targetTime
    let position := pv.1
    let velocity := pv.2
    let jd := env.jday targetTime
    let gmst := env.thetaG jd
    let lla := env.eciToLLA position gmst
    let altitude := lla.1
    let latLong := lla.2.2
    let velocityMagnitude :=
      env.sqrtQ (velocity.x * velocity.x + velocity.y * velocity.y + velocity.z * velocity.z)
    .ok { Latitude := latLong.Latitude * env.RAD2DEG,
          Longitude := latLong.Longitude * env.RAD2DEG,
          Altitude := altitude / 1000,
          Velocity := velocityMagnitude,
          Timestamp := goUnix targetTime }

/-- CalculateSGP4PositionWithObserver of the source: the single-epoch
position first, then the observer conversion and look-angle calls; the
range is recomputed locally and the range rate is the constant 0. -/
def CalculateSGP4PositionWithObserver (env : Sgp4Env) (line1 line2 : String)
    (targetTime : Int) (observer : ObserverPosition) : Except SgpErr SGP4PositionResult :=
  match CalculateSGP4Position env line1 line2 targetTime with
  | .error e => .error e
  | .ok satPosition =>
    let l1 := gTrimSpace line1
    let l2 := gTrimSpace line2
    let pv := env.propagate l1 l2 targetTime
    let position := pv.1
    let jd := env.jday targetTime
    let obsLatLong : LatLong :=
      { Latitude := observer.Latitude * env.DEG2RAD,
        Longitude := observer.Longitude * env.DEG2RAD }
    let obsAlt := observer.Altitude / 1000
    let obsECI := env.llaToECI obsLatLong obsAlt jd
    let la := env.eciToLookAngles position obsLatLong obsAlt jd
    let dx := position.x - obsECI.x
    let dy := position.y - obsECI.y
    let dz := position.z - obsECI.z
    let rangeKm := env.sqrtQ (dx * dx + dy * dy + dz * dz) / 1000
    .ok { Position := satPosition,
          Angles := { Azimuth := la.Az * env.RAD2DEG,
                      Elevation := la.El * env.RAD2DEG,
                      Range := rangeKm,
                      RangeRate := 0 } }

/-- The sampling loop of CalculateSGP4Positions: while the current
instant is not after the end, evaluate the single-epoch pipeline, abort
on the first error (wrapped with the instant), else append and advance
by the interval. The fuel argument only bounds the recursion; the
callers below always pass enough for the loop to exit through its
time-bound test. -/
def sampleLoop (calcP : Int → Except SgpErr SGPPosition) (endTime interval : Int) :
    Int → Nat → Except SgpErr (List SGPPosition)
  | _, 0 => .ok []
  | current, Nat.succ fuel =>
    if endTime < current then .ok []
    else
      match calcP current with
      | .error e => .error (.failedAt current e)
      | .ok p =>
        match sampleLoop calcP endTime interval (current + interval) fuel with
        | .error e => .error e
        | .ok ps => .ok (p :: ps)

/-- CalculateSGP4Positions of the source: the two range checks, then the
inclusive sampling loop from the start instant. -/
def CalculateSGP4Positions (env : Sgp4Env) (line1 line2 : String)
    (startTime endTime interval : Int) : Except SgpErr (List SGPPosition) :=
  if endTime < startTime then .error .startAfterEnd
  else if interval ≤ 0 then .error .intervalNotPositive
  else
    sampleLoop (fun t => CalculateSGP4Position env line1 line2 t) endTime interval
      startTime ((endTime - startTime).toNat + 1)

/-- Number of instants the inclusive sampler visits on a valid range. -/
def numSamples (startTime endTime interval : Int) : Nat :=
  (endTime - startTime).toNat / interval.toNat + 1

/-- The arithmetic progression of sampled instants on a valid range. -/
def instants (startTime endTime interval : Int) : List Int :=
  (List.range (numSamples startTime endTime interval)).map
    (fun (k : Nat) => startTime + (k : Int) * interval)

/-- Number of loop iterations remaining from a current instant. -/
def sampleCount (endTime interval current : Int) : Nat :=
  if endTime < current then 0 else (endTime - current).toNat / interval.toNat + 1

/-- A concrete environment instance for closed evaluations: every
external collaborator returns zero. Its square root agrees with the
real one at 0, the only argument the closed statements below reach. -/
def env0 : Sgp4Env where
  propagate := fun _ _ _ => (⟨0, 0, 0⟩, ⟨0, 0, 0⟩)
  jday := fun _ => 0
  thetaG := fun _ => 0
  eciToLLA := fun _ _ => (0, 0, ⟨0, 0⟩)
  llaToECI := fun _ _ _ => ⟨0, 0, 0⟩
  eciToLookAngles := fun _ _ _ _ => ⟨0, 0, 0⟩
  sqrtQ := fun _ => 0
  RAD2DEG := 0
  DEG2RAD := 0

/-- A syntactically valid 69-character line 1 for closed statements. -/
def L1ex : String := ⟨'1' :: ' ' :: List.replicate 67 'x'⟩

/-- A syntactically valid 69-character line 2 for closed statements. -/
def L2ex : String := ⟨'2' :: ' ' :: List.replicate 67 'x'⟩

/-- The position env0 produces at an instant once validation passes. -/
def posAt (t : Int) : SGPPosition :=
  { Latitude := 0, Longitude := 0, Altitude := 0, Velocity := 0, Timestamp := goUnix t }

/-- Go array indexing arr[i]: none models the index-out-of-range panic. -/
def arrGet (l : List String) (i : Nat) : Option String := l[i]?

/-- Go string slicing s[a:b]: none models the slice-bounds panic. -/
def gsliceP (s : String) (a b : Nat) : Option String :=
  if a ≤ b ∧ b ≤ glen s then some (gslice s a b) else none

/-- Go single-byte access string(s[i]): none models the index panic. -/
def gcharP (s : String) (i : Nat) : Option String :=
  if i < glen s then some (gslice s i (i + 1)) else none

/-- Panic-instrumented line-1 token 1 block: every index and slice of the
source is replaced by its checked form. -/
def catalogStepP (firstArr : List String) (tle : TLE) : Option TLE :=
  if 1 < firstArr.length then do
    let tok ← arrGet firstArr 1
    if 0 < glen tok then do
      let catalogStr ← arrGet firstArr 1
      if 1 < glen catalogStr then do
        let a ← gsliceP catalogStr 0 (glen catalogStr - 1)
        let b ← gcharP catalogStr (glen catalogStr - 1)
        pure { tle with SatelliteCatalogNumber := goAtoi a, ElsetClassificiation := b }
      else pure { tle with SatelliteCatalogNumber := goAtoi catalogStr }
    else pure tle
  else pure tle

/-- Panic-instrumented line-1 token 2 block. -/
def designatorStepP (firstArr : List String) (tle : TLE) : Option TLE :=
  if 2 < firstArr.length then do
    let tok ← arrGet firstArr 2
    pure { tle with InternationalDesignator := tok }
  else pure tle

/-- Panic-instrumented line-1 token 3 block. -/
def epochStepP (firstArr : List String) (tle : TLE) : Option TLE :=
  if 3 < firstArr.length then do
    let tok ← arrGet firstArr 3
    pure { tle with ElementSetEpoch := goParseFloat0 tok }
  else pure tle

/-- Panic-instrumented line-1 token 4 block. -/
def firstDerivStepP (firstArr : List String) (tle : TLE) : Option TLE :=
  if 4 < firstArr.length then do
    let tok ← arrGet firstArr 4
    pure { tle with FirstDerivativeMeanMotion := goParseFloat0 tok }
  else pure tle

/-- Panic-instrumented line-1 token 5 block. -/
def secondDerivStepP (firstArr : List String) (tle : TLE) : Option TLE :=
  if 5 < firstArr.length then do
    let tok ← arrGet firstArr 5
    pure { tle with SecondDerivativeMeanMotion := tok }
  else pure tle

/-- Panic-instrumented line-1 token 6 block. -/
def bdragStepP (firstArr : List String) (tle : TLE) : Option TLE :=
  if 6 < firstArr.length then do
    let tok ← arrGet firstArr 6
    pure { tle with BDragTerm := tok }
  else pure tle

/-- Panic-instrumented line-1 token 7 block. -/
def elsetTypeStepP (firstArr : List String) (tle : TLE) : Option TLE :=
  if 7 < firstArr.length then do
    let tok ← arrGet firstArr 7
    pure { tle with ElementSetType := goAtoi tok }
  else pure tle

/-- Panic-instrumented line-1 token 8 block. -/
def elementNumberStepP (firstArr : List String) (tle : TLE) : Option TLE :=
  if 8 < firstArr.length then do
    let lastField ← arrGet firstArr 8
    if 1 < glen lastField then do
      let a ← gsliceP lastField 0 (glen lastField - 1)
      let b ← gcharP lastField (glen lastField - 1)
      pure { tle with ElementNumber := goAtoi a, ChecksumOne := goAtoi b }
    else if 0 < glen lastField then pure { tle with ElementNumber := goAtoi lastField }
    else pure tle
  else pure tle

/-- Panic-instrumented line-2 token 1 block. -/
def catalogOverwriteStepP (secondArr : List String) (tle : TLE) : Option TLE :=
  if 1 < secondArr.length then do
    let tok ← arrGet secondArr 1
    pure { tle with SatelliteCatalogNumber := goAtoi tok }
  else pure tle

/-- Panic-instrumented line-2 token 2 block. -/
def inclinationStepP (secondArr : List String) (tle : TLE) : Option TLE :=
  if 2 < secondArr.length then do
    let tok ← arrGet secondArr 2
    pure { tle with OrbitInclination := goParseFloat0 tok }
  else pure tle

/-- Panic-instrumented line-2 token 3 block. -/
def raanStepP (secondArr : List String) (tle : TLE) : Option TLE :=
  if 3 < secondArr.length then do
    let tok ← arrGet secondArr 3
    pure { tle with RightAscension := goParseFloat0 tok }
  else pure tle

/-- Panic-instrumented line-2 token 4 block. -/
def eccentricityStepP (secondArr : List String) (tle : TLE) : Option TLE :=
  if 4 < secondArr.length then do
    let tok ← arrGet secondArr 4
    pure { tle with Eccentrcity := goParseFloat0 ("0." ++ tok) }
  else pure tle

/-- Panic-instrumented line-2 token 5 block. -/
def perigeeStepP (secondArr : List String) (tle : TLE) : Option TLE :=
  if 5 < secondArr.length then do
    let tok ← arrGet secondArr 5
    pure { tle with Perigee := goParseFloat0 tok }
  else pure tle

/-- Panic-instrumented line-2 token 6 block. -/
def meanAnomalyStepP (secondArr : List String) (tle : TLE) : Option TLE :=
  if 6 < secondArr.length then do
    let tok ← arrGet secondArr 6
    pure { tle with MeanAnamoly := goParseFloat0 tok }
  else pure tle

/-- Panic-instrumented line-2 token 7 block. -/
def meanMotionStepP (secondArr : List String) (tle : TLE) : Option TLE :=
  if 7 < secondArr.length then do
    let meanMotionStr ← arrGet secondArr 7
    let tle1 ←
      if 11 ≤ glen meanMotionStr then do
        let a ← gsliceP meanMotionStr 0 11
        let tleA := { tle with MeanMotion := goParseFloat0 a }
        if 16 ≤ glen meanMotionStr then do
          let b ← gsliceP meanMotionStr 11 16
          pure { tleA with RevolutionNumber := goAtoi b }
        else pure tleA
      else pure { tle with MeanMotion := goParseFloat0 meanMotionStr }
    if 0 < glen meanMotionStr then do
      let c ← gcharP meanMotionStr (glen meanMotionStr - 1)
      pure { tle1 with ChecksumTwo := goAtoi c }
    else pure tle1
  else pure tle

/-- ConstructTLE under the Go panic semantics: the same blocks in the
same order, every index and slice checked; none models a runtime panic. -/
def ConstructTLEp (one two three : String) : Option TLE :=
  let tle := { emptyTLE with CommonName := one }
  let firstArr := gfields two
  let secondArr := gfields three
  if firstArr.length < 4 then some tle
  else if secondArr.length < 3 then some tle
  else do
    let t1 ← catalogStepP firstArr tle
    let t2 ← designatorStepP firstArr t1
    let t3 ← epochStepP firstArr t2
    let t4 ← firstDerivStepP firstArr t3
    let t5 ← secondDerivStepP firstArr t4
    let t6 ← bdragStepP firstArr t5
    let t7 ← elsetTypeStepP firstArr t6
    let t8 ← elementNumberStepP firstArr t7
    let t9 ← catalogOverwriteStepP secondArr t8
    let t10 ← inclinationStepP secondArr t9
    let t11 ← raanStepP secondArr t10
    let t12 ← eccentricityStepP secondArr t11
    let t13 ← perigeeStepP secondArr t12
    let t14 ← meanAnomalyStepP secondArr t13
    meanMotionStepP secondArr t14



/-- Decidable equality for Except results, for closed evaluations. -/
instance exceptDecEq {E A : Type} [DecidableEq E] [DecidableEq A] :
    DecidableEq (Except E A)
  | .ok a, .ok b =>
    if h : a = b then .isTrue (h ▸ rfl) else
      .isFalse (fun hc => by cases hc; exact h rfl)
  | .error a, .error b =>
    if h : a = b then .isTrue (h ▸ rfl) else
      .isFalse (fun hc => by cases hc; exact h rfl)
  | .ok _, .error _ => .isFalse (fun hc => by cases hc)
  | .error _, .ok _ => .isFalse (fun hc => by cases hc)

/-- Whether an Except value is a success. -/
def isOkE {A : Type} (r : Except SgpErr A) : Bool :=
  match r with
  | .ok _ => true
  | .error _ => false

/-- In-bounds list access agrees with the total default access. -/
theorem arrGet_eq (l : List String) (i : Nat) (h : i < l.length) :
    arrGet l i = some (l.getD i "") := by
  unfold arrGet
  rw [List.getElem?_eq_getElem h, List.getD_eq_getElem _ _ h]

/-- The total default access of an in-bounds index is a member. -/
theorem getD_mem (l : List String) (i : Nat) (h : i < l.length) : l.getD i "" ∈ l := by
  rw [List.getD_eq_getElem _ _ h]
  exact List.getElem_mem h

/-- Every token the fields worker emits is a non-empty character list. -/
theorem fieldsAux_ne_nil : ∀ (l acc t : List Char), t ∈ fieldsAux l acc → t ≠ [] := by
  intro l
  induction l with
  | nil =>
    intro acc t ht
    unfold fieldsAux at ht
    by_cases h : acc.isEmpty
    · simp [h] at ht
    · simp [h] at ht
      subst ht
      simpa [List.isEmpty_iff] using h
  | cons c cs ih =>
    intro acc t ht
    unfold fieldsAux at ht
    by_cases hsp : isGoSpace c
    · by_cases h : acc.isEmpty
      · simp [hsp, h] at ht
        exact ih [] t ht
      · simp [hsp, h] at ht
        rcases ht with h1 | h1
        · subst h1
          simpa [List.isEmpty_iff] using h
        · exact ih [] t h1
    · simp [hsp] at ht
      exact ih (c :: acc) t ht

/-- Every token of gfields is a non-empty string. -/
theorem gfields_ne_empty (s t : String) (ht : t ∈ gfields s) : t ≠ "" := by
  unfold gfields at ht
  rcases List.mem_map.mp ht with ⟨tk, htk, rfl⟩
  have h := fieldsAux_ne_nil s.toList [] tk htk
  intro hcontra
  apply h
  have : (List.asString tk).toList = ("" : String).toList := by rw [hcontra]
  simpa [List.asString] using this

/-- The checked catalog block never panics and agrees with the total one. -/
theorem catalogStepP_eq (arr : List String) (t : TLE) :
    catalogStepP arr t = some (catalogStep arr t) := by
  unfold catalogStepP catalogStep
  by_cases h1 : 1 < arr.length
  · rw [if_pos h1, arrGet_eq arr 1 h1]
    by_cases h2 : 0 < glen (arr.getD 1 "")
    · rw [if_pos ⟨h1, h2⟩]
      simp only [Option.bind_eq_bind, Option.some_bind, if_pos h2]
      by_cases h3 : 1 < glen (arr.getD 1 "")
      · rw [if_pos h3, if_pos h3]
        have hs1 : gsliceP (arr.getD 1 "") 0 (glen (arr.getD 1 "") - 1) =
            some (gslice (arr.getD 1 "") 0 (glen (arr.getD 1 "") - 1)) := by
          unfold gsliceP
          rw [if_pos ⟨Nat.zero_le _, Nat.sub_le _ _⟩]
        have hs2 : gcharP (arr.getD 1 "") (glen (arr.getD 1 "") - 1) =
            some (gslice (arr.getD 1 "") (glen (arr.getD 1 "") - 1) (glen (arr.getD 1 ""))) := by
          unfold gcharP
          rw [if_pos (by omega)]
          congr 1
          congr 1
          omega
        rw [hs1, hs2]
        simp
      · rw [if_neg h3, if_neg h3]
        simp
    · simp only [Option.bind_eq_bind, Option.pure_def, Option.some_bind]
      rw [if_neg h2, if_neg (by tauto)]
  · rw [if_neg h1, if_neg (by tauto)]
    rfl

/-- The checked designator block never panics and agrees with the total one. -/
theorem designatorStepP_eq (arr : List String) (t : TLE) :
    designatorStepP arr t = some (designatorStep arr t) := by
  unfold designatorStepP designatorStep
  by_cases h : 2 < arr.length
  · rw [if_pos h, if_pos h, arrGet_eq arr 2 h]
    rfl
  · rw [if_neg h, if_neg h]
    rfl

/-- The checked epoch block never panics and agrees with the total one. -/
theorem epochStepP_eq (arr : List String) (t : TLE) :
    epochStepP arr t = some (epochStep arr t) := by
  unfold epochStepP epochStep
  by_cases h : 3 < arr.length
  · rw [if_pos h, if_pos h, arrGet_eq arr 3 h]
    rfl
  · rw [if_neg h, if_neg h]
    rfl

/-- The checked first-derivative block never panics and agrees with the total one. -/
theorem firstDerivStepP_eq (arr : List String) (t : TLE) :
    firstDerivStepP arr t = some (firstDerivStep arr t) := by
  unfold firstDerivStepP firstDerivStep
  by_cases h : 4 < arr.length
  · rw [if_pos h, if_pos h, arrGet_eq arr 4 h]
    rfl
  · rw [if_neg h, if_neg h]
    rfl

/-- The checked second-derivative block never panics and agrees with the total one. -/
theorem secondDerivStepP_eq (arr : List String) (t : TLE) :
    secondDerivStepP arr t = some (secondDerivStep arr t) := by
  unfold secondDerivStepP secondDerivStep
  by_cases h : 5 < arr.length
  · rw [if_pos h, if_pos h, arrGet_eq arr 5 h]
    rfl
  · rw [if_neg h, if_neg h]
    rfl

/-- The checked drag-term block never panics and agrees with the total one. -/
theorem bdragStepP_eq (arr : List String) (t : TLE) :
    bdragStepP arr t = some (bdragStep arr t) := by
  unfold bdragStepP bdragStep
  by_cases h : 6 < arr.length
  · rw [if_pos h, if_pos h, arrGet_eq arr 6 h]
    rfl
  · rw [if_neg h, if_neg h]
    rfl

/-- The checked element-set-type block never panics and agrees with the total one. -/
theorem elsetTypeStepP_eq (arr : List String) (t : TLE) :
    elsetTypeStepP arr t = some (elsetTypeStep arr t) := by
  unfold elsetTypeStepP elsetTypeStep
  by_cases h : 7 < arr.length
  · rw [if_pos h, if_pos h, arrGet_eq arr 7 h]
    rfl
  · rw [if_neg h, if_neg h]
    rfl

/-- The checked element-number block never panics and agrees with the total one. -/
theorem elementNumberStepP_eq (arr : List String) (t : TLE) :
    elementNumberStepP arr t = some (elementNumberStep arr t) := by
  unfold elementNumberStepP elementNumberStep
  by_cases h1 : 8 < arr.length
  · rw [if_pos h1, if_pos h1, arrGet_eq arr 8 h1]
    simp only [Option.bind_eq_bind, Option.pure_def, Option.some_bind]
    by_cases h3 : 1 < glen (arr.getD 8 "")
    · rw [if_pos h3, if_pos h3]
      have hs1 : gsliceP (arr.getD 8 "") 0 (glen (arr.getD 8 "") - 1) =
          some (gslice (arr.getD 8 "") 0 (glen (arr.getD 8 "") - 1)) := by
        unfold gsliceP
        rw [if_pos ⟨Nat.zero_le _, Nat.sub_le _ _⟩]
      have hs2 : gcharP (arr.getD 8 "") (glen (arr.getD 8 "") - 1) =
          some (gslice (arr.getD 8 "") (glen (arr.getD 8 "") - 1) (glen (arr.getD 8 ""))) := by
        unfold gcharP
        rw [if_pos (by omega)]
        congr 1
        congr 1
        omega
      rw [hs1, hs2]
      simp
    · rw [if_neg h3, if_neg h3]
      by_cases h4 : 0 < glen (arr.getD 8 "")
      · rw [if_pos h4, if_pos h4]
      · rw [if_neg h4, if_neg h4]
  · rw [if_neg h1, if_neg h1]
    rfl

/-- The checked line-2 catalog block never panics and agrees with the total one. -/
theorem catalogOverwriteStepP_eq (arr : List String) (t : TLE) :
    catalogOverwriteStepP arr t = some (catalogOverwriteStep arr t) := by
  unfold catalogOverwriteStepP catalogOverwriteStep
  by_cases h : 1 < arr.length
  · rw [if_pos h, if_pos h, arrGet_eq arr 1 h]
    rfl
  · rw [if_neg h, if_neg h]
    rfl

/-- The checked inclination block never panics and agrees with the total one. -/
theorem inclinationStepP_eq (arr : List String) (t : TLE) :
    inclinationStepP arr t = some (inclinationStep arr t) := by
  unfold inclinationStepP inclinationStep
  by_cases h : 2 < arr.length
  · rw [if_pos h, if_pos h, arrGet_eq arr 2 h]
    rfl
  · rw [if_neg h, if_neg h]
    rfl

/-- The checked right-ascension block never panics and agrees with the total one. -/
theorem raanStepP_eq (arr : List String) (t : TLE) :
    raanStepP arr t = some (raanStep arr t) := by
  unfold raanStepP raanStep
  by_cases h : 3 < arr.length
  · rw [if_pos h, if_pos h, arrGet_eq arr 3 h]
    rfl
  · rw [if_neg h, if_neg h]
    rfl

/-- The checked eccentricity block never panics and agrees with the total one. -/
theorem eccentricityStepP_eq (arr : List String) (t : TLE) :
    eccentricityStepP arr t = some (eccentricityStep arr t) := by
  unfold eccentricityStepP eccentricityStep
  by_cases h : 4 < arr.length
  · rw [if_pos h, if_pos h, arrGet_eq arr 4 h]
    rfl
  · rw [if_neg h, if_neg h]
    rfl

/-- The checked perigee block never panics and agrees with the total one. -/
theorem perigeeStepP_eq (arr : List String) (t : TLE) :
    perigeeStepP arr t = some (perigeeStep arr t) := by
  unfold perigeeStepP perigeeStep
  by_cases h : 5 < arr.length
  · rw [if_pos h, if_pos h, arrGet_eq arr 5 h]
    rfl
  · rw [if_neg h, if_neg h]
    rfl

/-- The checked mean-anomaly block never panics and agrees with the total one. -/
theorem meanAnomalyStepP_eq (arr : List String) (t : TLE) :
    meanAnomalyStepP arr t = some (meanAnomalyStep arr t) := by
  unfold meanAnomalyStepP meanAnomalyStep
  by_cases h : 6 < arr.length
  · rw [if_pos h, if_pos h, arrGet_eq arr 6 h]
    rfl
  · rw [if_neg h, if_neg h]
    rfl

/-- The checked combined mean-motion block never panics and agrees with the total one. -/
theorem meanMotionStepP_eq (arr : List String) (t : TLE) :
    meanMotionStepP arr t = some (meanMotionStep arr t) := by
  unfold meanMotionStepP meanMotionStep
  by_cases h1 : 7 < arr.length
  case neg =>
    rw [if_neg h1, if_neg h1]
    rfl
  rw [if_pos h1, if_pos h1, arrGet_eq arr 7 h1]
  set s := arr.getD 7 "" with hsdef
  simp only [Option.bind_eq_bind, Option.pure_def, Option.some_bind]
  by_cases h11 : 11 ≤ glen s
  · rw [if_pos h11, if_pos h11,
      show gsliceP s 0 11 = some (gslice s 0 11) from by
        unfold gsliceP
        rw [if_pos ⟨by omega, by omega⟩]]
    simp only [Option.pure_def, Option.some_bind]
    by_cases h16 : 16 ≤ glen s
    · rw [if_pos h16, if_pos h16,
        show gsliceP s 11 16 = some (gslice s 11 16) from by
          unfold gsliceP
          rw [if_pos ⟨by omega, by omega⟩]]
      simp only [Option.pure_def, Option.some_bind]
      have h0 : 0 < glen s := by omega
      rw [if_pos h0, if_pos h0,
        show gcharP s (glen s - 1) = some (gslice s (glen s - 1) (glen s)) from by
          unfold gcharP
          rw [if_pos (by omega)]
          congr 2
          omega]
      simp only [Option.pure_def, Option.some_bind]
    · rw [if_neg h16, if_neg h16]
      have h0 : 0 < glen s := by omega
      rw [if_pos h0, if_pos h0,
        show gcharP s (glen s - 1) = some (gslice s (glen s - 1) (glen s)) from by
          unfold gcharP
          rw [if_pos (by omega)]
          congr 2
          omega]
      simp only [Option.pure_def, Option.some_bind]
  · rw [if_neg h11, if_neg h11]
    by_cases h0 : 0 < glen s
    · rw [if_pos h0, if_pos h0,
        show gcharP s (glen s - 1) = some (gslice s (glen s - 1) (glen s)) from by
          unfold gcharP
          rw [if_pos (by omega)]
          congr 2
          omega]
      simp only [Option.pure_def, Option.some_bind]
    · rw [if_neg h0, if_neg h0]

/-- The fully checked parser never panics and agrees with the total parser. -/
theorem constructTLEp_eq (one two three : String) :
    ConstructTLEp one two three = some (ConstructTLE one two three) := by
  unfold ConstructTLEp ConstructTLE
  by_cases h1 : (gfields two).length < 4
  · rw [if_pos h1, if_pos h1]
  · rw [if_neg h1, if_neg h1]
    by_cases h2 : (gfields three).length < 3
    · rw [if_pos h2, if_pos h2]
    · rw [if_neg h2, if_neg h2]
      rw [catalogStepP_eq]
      simp only [Option.bind_eq_bind, Option.some_bind]
      rw [designatorStepP_eq]
      simp only [Option.some_bind]
      rw [epochStepP_eq]
      simp only [Option.some_bind]
      rw [firstDerivStepP_eq]
      simp only [Option.some_bind]
      rw [secondDerivStepP_eq]
      simp only [Option.some_bind]
      rw [bdragStepP_eq]
      simp only [Option.some_bind]
      rw [elsetTypeStepP_eq]
      simp only [Option.some_bind]
      rw [elementNumberStepP_eq]
      simp only [Option.some_bind]
      rw [catalogOverwriteStepP_eq]
      simp only [Option.some_bind]
      rw [inclinationStepP_eq]
      simp only [Option.some_bind]
      rw [raanStepP_eq]
      simp only [Option.some_bind]
      rw [eccentricityStepP_eq]
      simp only [Option.some_bind]
      rw [perigeeStepP_eq]
      simp only [Option.some_bind]
      rw [meanAnomalyStepP_eq]
      simp only [Option.some_bind]
      rw [meanMotionStepP_eq]

/-- The epochStep block leaves the InternationalDesignator field unchanged. -/
theorem epochStep_keepsID (arr : List String) (t : TLE) :
    (epochStep arr t).InternationalDesignator = t.InternationalDesignator := by
  unfold epochStep
  split_ifs <;> rfl

/-- The firstDerivStep block leaves the InternationalDesignator field unchanged. -/
theorem firstDerivStep_keepsID (arr : List String) (t : TLE) :
    (firstDerivStep arr t).InternationalDesignator = t.InternationalDesignator := by
  unfold firstDerivStep
  split_ifs <;> rfl

/-- The secondDerivStep block leaves the InternationalDesignator field unchanged. -/
theorem secondDerivStep_keepsID (arr : List String) (t : TLE) :
    (secondDerivStep arr t).InternationalDesignator = t.InternationalDesignator := by
  unfold secondDerivStep
  split_ifs <;> rfl

/-- The bdragStep block leaves the InternationalDesignator field unchanged. -/
theorem bdragStep_keepsID (arr : List String) (t : TLE) :
    (bdragStep arr t).InternationalDesignator = t.InternationalDesignator := by
  unfold bdragStep
  split_ifs <;> rfl

/-- The elsetTypeStep block leaves the InternationalDesignator field unchanged. -/
theorem elsetTypeStep_keepsID (arr : List String) (t : TLE) :
    (elsetTypeStep arr t).InternationalDesignator = t.InternationalDesignator := by
  unfold elsetTypeStep
  split_ifs <;> rfl

/-- The elementNumberStep block leaves the InternationalDesignator field unchanged. -/
theorem elementNumberStep_keepsID (arr : List String) (t : TLE) :
    (elementNumberStep arr t).InternationalDesignator = t.InternationalDesignator := by
  simp only [elementNumberStep]
  split_ifs <;> rfl

/-- The catalogOverwriteStep block leaves the InternationalDesignator field unchanged. -/
theorem catalogOverwriteStep_keepsID (arr : List String) (t : TLE) :
    (catalogOverwriteStep arr t).InternationalDesignator = t.InternationalDesignator := by
  unfold catalogOverwriteStep
  split_ifs <;> rfl

/-- The inclinationStep block leaves the InternationalDesignator field unchanged. -/
theorem inclinationStep_keepsID (arr : List String) (t : TLE) :
    (inclinationStep arr t).InternationalDesignator = t.InternationalDesignator := by
  unfold inclinationStep
  split_ifs <;> rfl

/-- The raanStep block leaves the InternationalDesignator field unchanged. -/
theorem raanStep_keepsID (arr : List String) (t : TLE) :
    (raanStep arr t).InternationalDesignator = t.InternationalDesignator := by
  unfold raanStep
  split_ifs <;> rfl

/-- The eccentricityStep block leaves the InternationalDesignator field unchanged. -/
theorem eccentricityStep_keepsID (arr : List String) (t : TLE) :
    (eccentricityStep arr t).InternationalDesignator = t.InternationalDesignator := by
  unfold eccentricityStep
  split_ifs <;> rfl

/-- The perigeeStep block leaves the InternationalDesignator field unchanged. -/
theorem perigeeStep_keepsID (arr : List String) (t : TLE) :
    (perigeeStep arr t).InternationalDesignator = t.InternationalDesignator := by
  unfold perigeeStep
  split_ifs <;> rfl

/-- The meanAnomalyStep block leaves the InternationalDesignator field unchanged. -/
theorem meanAnomalyStep_keepsID (arr : List String) (t : TLE) :
    (meanAnomalyStep arr t).InternationalDesignator = t.InternationalDesignator := by
  unfold meanAnomalyStep
  split_ifs <;> rfl

/-- The meanMotionStep block leaves the InternationalDesignator field unchanged. -/
theorem meanMotionStep_keepsID (arr : List String) (t : TLE) :
    (meanMotionStep arr t).InternationalDesignator = t.InternationalDesignator := by
  simp only [meanMotionStep]
  split_ifs <;> rfl

/-- The catalogStep block leaves the InternationalDesignator field unchanged. -/
theorem catalogStep_keepsID (arr : List String) (t : TLE) :
    (catalogStep arr t).InternationalDesignator = t.InternationalDesignator := by
  simp only [catalogStep]
  split_ifs <;> rfl

/-- The inclinationStep block leaves the SatelliteCatalogNumber field unchanged. -/
theorem inclinationStep_keepsCat (arr : List String) (t : TLE) :
    (inclinationStep arr t).SatelliteCatalogNumber = t.SatelliteCatalogNumber := by
  unfold inclinationStep
  split_ifs <;> rfl

/-- The raanStep block leaves the SatelliteCatalogNumber field unchanged. -/
theorem raanStep_keepsCat (arr : List String) (t : TLE) :
    (raanStep arr t).SatelliteCatalogNumber = t.SatelliteCatalogNumber := by
  unfold raanStep
  split_ifs <;> rfl

/-- The eccentricityStep block leaves the SatelliteCatalogNumber field unchanged. -/
theorem eccentricityStep_keepsCat (arr : List String) (t : TLE) :
    (eccentricityStep arr t).SatelliteCatalogNumber = t.SatelliteCatalogNumber := by
  unfold eccentricityStep
  split_ifs <;> rfl

/-- The perigeeStep block leaves the SatelliteCatalogNumber field unchanged. -/
theorem perigeeStep_keepsCat (arr : List String) (t : TLE) :
    (perigeeStep arr t).SatelliteCatalogNumber = t.SatelliteCatalogNumber := by
  unfold perigeeStep
  split_ifs <;> rfl

/-- The meanAnomalyStep block leaves the SatelliteCatalogNumber field unchanged. -/
theorem meanAnomalyStep_keepsCat (arr : List String) (t : TLE) :
    (meanAnomalyStep arr t).SatelliteCatalogNumber = t.SatelliteCatalogNumber := by
  unfold meanAnomalyStep
  split_ifs <;> rfl

/-- The meanMotionStep block leaves the SatelliteCatalogNumber field unchanged. -/
theorem meanMotionStep_keepsCat (arr : List String) (t : TLE) :
    (meanMotionStep arr t).SatelliteCatalogNumber = t.SatelliteCatalogNumber := by
  simp only [meanMotionStep]
  split_ifs <;> rfl

/-- The designatorStep block leaves the SatelliteCatalogNumber field unchanged. -/
theorem designatorStep_keepsCat (arr : List String) (t : TLE) :
    (designatorStep arr t).SatelliteCatalogNumber = t.SatelliteCatalogNumber := by
  unfold designatorStep
  split_ifs <;> rfl

/-- The epochStep block leaves the SatelliteCatalogNumber field unchanged. -/
theorem epochStep_keepsCat (arr : List String) (t : TLE) :
    (epochStep arr t).SatelliteCatalogNumber = t.SatelliteCatalogNumber := by
  unfold epochStep
  split_ifs <;> rfl

/-- The firstDerivStep block leaves the SatelliteCatalogNumber field unchanged. -/
theorem firstDerivStep_keepsCat (arr : List String) (t : TLE) :
    (firstDerivStep arr t).SatelliteCatalogNumber = t.SatelliteCatalogNumber := by
  unfold firstDerivStep
  split_ifs <;> rfl

/-- The secondDerivStep block leaves the SatelliteCatalogNumber field unchanged. -/
theorem secondDerivStep_keepsCat (arr : List String) (t : TLE) :
    (secondDerivStep arr t).SatelliteCatalogNumber = t.SatelliteCatalogNumber := by
  unfold secondDerivStep
  split_ifs <;> rfl

/-- The bdragStep block leaves the SatelliteCatalogNumber field unchanged. -/
theorem bdragStep_keepsCat (arr : List String) (t : TLE) :
    (bdragStep arr t).SatelliteCatalogNumber = t.SatelliteCatalogNumber := by
  unfold bdragStep
  split_ifs <;> rfl

/-- The elsetTypeStep block leaves the SatelliteCatalogNumber field unchanged. -/
theorem elsetTypeStep_keepsCat (arr : List String) (t : TLE) :
    (elsetTypeStep arr t).SatelliteCatalogNumber = t.SatelliteCatalogNumber := by
  unfold elsetTypeStep
  split_ifs <;> rfl

/-- The elementNumberStep block leaves the SatelliteCatalogNumber field unchanged. -/
theorem elementNumberStep_keepsCat (arr : List String) (t : TLE) :
    (elementNumberStep arr t).SatelliteCatalogNumber = t.SatelliteCatalogNumber := by
  simp only [elementNumberStep]
  split_ifs <;> rfl

/-- The catalogStep block leaves the RevolutionNumber field unchanged. -/
theorem catalogStep_keepsRev (arr : List String) (t : TLE) :
    (catalogStep arr t).RevolutionNumber = t.RevolutionNumber := by
  simp only [catalogStep]
  split_ifs <;> rfl

/-- The designatorStep block leaves the RevolutionNumber field unchanged. -/
theorem designatorStep_keepsRev (arr : List String) (t : TLE) :
    (designatorStep arr t).RevolutionNumber = t.RevolutionNumber := by
  unfold designatorStep
  split_ifs <;> rfl

/-- The epochStep block leaves the RevolutionNumber field unchanged. -/
theorem epochStep_keepsRev (arr : List String) (t : TLE) :
    (epochStep arr t).RevolutionNumber = t.RevolutionNumber := by
  unfold epochStep
  split_ifs <;> rfl

/-- The firstDerivStep block leaves the RevolutionNumber field unchanged. -/
theorem firstDerivStep_keepsRev (arr : List String) (t : TLE) :
    (firstDerivStep arr t).RevolutionNumber = t.RevolutionNumber := by
  unfold firstDerivStep
  split_ifs <;> rfl

/-- The secondDerivStep block leaves the RevolutionNumber field unchanged. -/
theorem secondDerivStep_keepsRev (arr : List String) (t : TLE) :
    (secondDerivStep arr t).RevolutionNumber = t.RevolutionNumber := by
  unfold secondDerivStep
  split_ifs <;> rfl

/-- The bdragStep block leaves the RevolutionNumber field unchanged. -/
theorem bdragStep_keepsRev (arr : List String) (t : TLE) :
    (bdragStep arr t).RevolutionNumber = t.RevolutionNumber := by
  unfold bdragStep
  split_ifs <;> rfl

/-- The elsetTypeStep block leaves the RevolutionNumber field unchanged. -/
theorem elsetTypeStep_keepsRev (arr : List String) (t : TLE) :
    (elsetTypeStep arr t).RevolutionNumber = t.RevolutionNumber := by
  unfold elsetTypeStep
  split_ifs <;> rfl

/-- The elementNumberStep block leaves the RevolutionNumber field unchanged. -/
theorem elementNumberStep_keepsRev (arr : List String) (t : TLE) :
    (elementNumberStep arr t).RevolutionNumber = t.RevolutionNumber := by
  simp only [elementNumberStep]
  split_ifs <;> rfl

/-- The catalogOverwriteStep block leaves the RevolutionNumber field unchanged. -/
theorem catalogOverwriteStep_keepsRev (arr : List String) (t : TLE) :
    (catalogOverwriteStep arr t).RevolutionNumber = t.RevolutionNumber := by
  unfold catalogOverwriteStep
  split_ifs <;> rfl

/-- The inclinationStep block leaves the RevolutionNumber field unchanged. -/
theorem inclinationStep_keepsRev (arr : List String) (t : TLE) :
    (inclinationStep arr t).RevolutionNumber = t.RevolutionNumber := by
  unfold inclinationStep
  split_ifs <;> rfl

/-- The raanStep block leaves the RevolutionNumber field unchanged. -/
theorem raanStep_keepsRev (arr : List String) (t : TLE) :
    (raanStep arr t).RevolutionNumber = t.RevolutionNumber := by
  unfold raanStep
  split_ifs <;> rfl

/-- The eccentricityStep block leaves the RevolutionNumber field unchanged. -/
theorem eccentricityStep_keepsRev (arr : List String) (t : TLE) :
    (eccentricityStep arr t).RevolutionNumber = t.RevolutionNumber := by
  unfold eccentricityStep
  split_ifs <;> rfl

/-- The perigeeStep block leaves the RevolutionNumber field unchanged. -/
theorem perigeeStep_keepsRev (arr : List String) (t : TLE) :
    (perigeeStep arr t).RevolutionNumber = t.RevolutionNumber := by
  unfold perigeeStep
  split_ifs <;> rfl

/-- The meanAnomalyStep block leaves the RevolutionNumber field unchanged. -/
theorem meanAnomalyStep_keepsRev (arr : List String) (t : TLE) :
    (meanAnomalyStep arr t).RevolutionNumber = t.RevolutionNumber := by
  unfold meanAnomalyStep
  split_ifs <;> rfl

/-- The firstDerivStep block leaves the ElementSetEpoch field unchanged. -/
theorem firstDerivStep_keepsEpoch (arr : List String) (t : TLE) :
    (firstDerivStep arr t).ElementSetEpoch = t.ElementSetEpoch := by
  unfold firstDerivStep
  split_ifs <;> rfl

/-- The secondDerivStep block leaves the ElementSetEpoch field unchanged. -/
theorem secondDerivStep_keepsEpoch (arr : List String) (t : TLE) :
    (secondDerivStep arr t).ElementSetEpoch = t.ElementSetEpoch := by
  unfold secondDerivStep
  split_ifs <;> rfl

/-- The bdragStep block leaves the ElementSetEpoch field unchanged. -/
theorem bdragStep_keepsEpoch (arr : List String) (t : TLE) :
    (bdragStep arr t).ElementSetEpoch = t.ElementSetEpoch := by
  unfold bdragStep
  split_ifs <;> rfl

/-- The elsetTypeStep block leaves the ElementSetEpoch field unchanged. -/
theorem elsetTypeStep_keepsEpoch (arr : List String) (t : TLE) :
    (elsetTypeStep arr t).ElementSetEpoch = t.ElementSetEpoch := by
  unfold elsetTypeStep
  split_ifs <;> rfl

/-- The elementNumberStep block leaves the ElementSetEpoch field unchanged. -/
theorem elementNumberStep_keepsEpoch (arr : List String) (t : TLE) :
    (elementNumberStep arr t).ElementSetEpoch = t.ElementSetEpoch := by
  simp only [elementNumberStep]
  split_ifs <;> rfl

/-- The catalogOverwriteStep block leaves the ElementSetEpoch field unchanged. -/
theorem catalogOverwriteStep_keepsEpoch (arr : List String) (t : TLE) :
    (catalogOverwriteStep arr t).ElementSetEpoch = t.ElementSetEpoch := by
  unfold catalogOverwriteStep
  split_ifs <;> rfl

/-- The inclinationStep block leaves the ElementSetEpoch field unchanged. -/
theorem inclinationStep_keepsEpoch (arr : List String) (t : TLE) :
    (inclinationStep arr t).ElementSetEpoch = t.ElementSetEpoch := by
  unfold inclinationStep
  split_ifs <;> rfl

/-- The raanStep block leaves the ElementSetEpoch field unchanged. -/
theorem raanStep_keepsEpoch (arr : List String) (t : TLE) :
    (raanStep arr t).ElementSetEpoch = t.ElementSetEpoch := by
  unfold raanStep
  split_ifs <;> rfl

/-- The eccentricityStep block leaves the ElementSetEpoch field unchanged. -/
theorem eccentricityStep_keepsEpoch (arr : List String) (t : TLE) :
    (eccentricityStep arr t).ElementSetEpoch = t.ElementSetEpoch := by
  unfold eccentricityStep
  split_ifs <;> rfl

/-- The perigeeStep block leaves the ElementSetEpoch field unchanged. -/
theorem perigeeStep_keepsEpoch (arr : List String) (t : TLE) :
    (perigeeStep arr t).ElementSetEpoch = t.ElementSetEpoch := by
  unfold perigeeStep
  split_ifs <;> rfl

/-- The meanAnomalyStep block leaves the ElementSetEpoch field unchanged. -/
theorem meanAnomalyStep_keepsEpoch (arr : List String) (t : TLE) :
    (meanAnomalyStep arr t).ElementSetEpoch = t.ElementSetEpoch := by
  unfold meanAnomalyStep
  split_ifs <;> rfl

/-- The meanMotionStep block leaves the ElementSetEpoch field unchanged. -/
theorem meanMotionStep_keepsEpoch (arr : List String) (t : TLE) :
    (meanMotionStep arr t).ElementSetEpoch = t.ElementSetEpoch := by
  simp only [meanMotionStep]
  split_ifs <;> rfl

/-- A non-empty string has positive Go length. -/
theorem glen_pos_of_ne (s : String) (h : s ≠ "") : 0 < glen s := by
  rcases s with ⟨l⟩
  cases l with
  | nil => exact absurd rfl h
  | cons c cs => simp [glen]

/-- Field values the combined-token block writes, for a present non-empty
token: mean motion from the first 11 characters or the whole token,
revolution number from characters 11..16 when long enough, and the
checksum always from the final character. -/
theorem meanMotionStep_spec (arr : List String) (t : TLE)
    (h7 : 7 < arr.length) (h0 : 0 < glen (arr.getD 7 "")) :
    (meanMotionStep arr t).MeanMotion =
      (if 11 ≤ glen (arr.getD 7 "") then goParseFloat0 (gslice (arr.getD 7 "") 0 11)
       else goParseFloat0 (arr.getD 7 "")) ∧
    (meanMotionStep arr t).RevolutionNumber =
      (if 16 ≤ glen (arr.getD 7 "") then goAtoi (gslice (arr.getD 7 "") 11 16)
       else t.RevolutionNumber) ∧
    (meanMotionStep arr t).ChecksumTwo =
      goAtoi (gslice (arr.getD 7 "") (glen (arr.getD 7 "") - 1) (glen (arr.getD 7 ""))) := by
  simp only [meanMotionStep, if_pos h7]
  split_ifs <;> first | (refine ⟨?_, ?_, ?_⟩ <;> rfl) | (exfalso; omega)

/-- On inputs passing both token-count checks, the parsed designator is
line-1 token 2 verbatim. -/
theorem ConstructTLE_ID (one two three : String)
    (h1 : 4 ≤ (gfields two).length) (h2 : 3 ≤ (gfields three).length) :
    (ConstructTLE one two three).InternationalDesignator = (gfields two).getD 2 "" := by
  simp only [ConstructTLE]
  rw [if_neg (by omega), if_neg (by omega)]
  rw [meanMotionStep_keepsID, meanAnomalyStep_keepsID, perigeeStep_keepsID,
    eccentricityStep_keepsID, raanStep_keepsID, inclinationStep_keepsID,
    catalogOverwriteStep_keepsID, elementNumberStep_keepsID, elsetTypeStep_keepsID,
    bdragStep_keepsID, secondDerivStep_keepsID, firstDerivStep_keepsID, epochStep_keepsID]
  simp only [designatorStep, if_pos (show 2 < (gfields two).length by omega)]

/-- On inputs passing both token-count checks, the record before the
combined-token block still carries a zero revolution number. -/
theorem chainRev_zero (one two three : String) :
    (meanAnomalyStep (gfields three) (perigeeStep (gfields three) (eccentricityStep (gfields three) (raanStep (gfields three) (inclinationStep (gfields three) (catalogOverwriteStep (gfields three) (elementNumberStep (gfields two) (elsetTypeStep (gfields two) (bdragStep (gfields two) (secondDerivStep (gfields two) (firstDerivStep (gfields two) (epochStep (gfields two) (designatorStep (gfields two) (catalogStep (gfields two) ({ emptyTLE with CommonName := one }))))))))))))))).RevolutionNumber = 0 := by
  rw [meanAnomalyStep_keepsRev, perigeeStep_keepsRev, eccentricityStep_keepsRev,
    raanStep_keepsRev, inclinationStep_keepsRev, catalogOverwriteStep_keepsRev,
    elementNumberStep_keepsRev, elsetTypeStep_keepsRev, bdragStep_keepsRev,
    secondDerivStep_keepsRev, firstDerivStep_keepsRev, epochStep_keepsRev,
    designatorStep_keepsRev, catalogStep_keepsRev]
  rfl

/-- On inputs passing both token-count checks, the catalog number of the
returned record is the one parsed from line-2 token 1, whatever line 1
carried. -/
theorem ConstructTLE_cat (one two three : String)
    (h1 : 4 ≤ (gfields two).length) (h2 : 3 ≤ (gfields three).length) :
    (ConstructTLE one two three).SatelliteCatalogNumber =
      goAtoi ((gfields three).getD 1 "") := by
  simp only [ConstructTLE]
  rw [if_neg (by omega), if_neg (by omega)]
  rw [meanMotionStep_keepsCat, meanAnomalyStep_keepsCat, perigeeStep_keepsCat,
    eccentricityStep_keepsCat, raanStep_keepsCat, inclinationStep_keepsCat]
  simp only [catalogOverwriteStep, if_pos (show 1 < (gfields three).length by omega)]

/-- When a token-count check fails, the parser returns the failure record. -/
theorem ConstructTLE_fail (one two three : String)
    (h : (gfields two).length < 4 ∨ (gfields three).length < 3) :
    ConstructTLE one two three = failTLE one := by
  simp only [ConstructTLE, failTLE]
  rcases h with h | h
  · rw [if_pos h]
  · by_cases h1 : (gfields two).length < 4
    · rw [if_pos h1]
    · rw [if_neg h1, if_pos h]

/-- The loop-count recurrence for one iteration step. -/
theorem sampleCount_rec (endTime interval current : Int) (hiv : 1 ≤ interval)
    (h : ¬ endTime < current) :
    sampleCount endTime interval current =
      sampleCount endTime interval (current + interval) + 1 := by
  unfold sampleCount
  rw [if_neg h]
  by_cases h2 : endTime < current + interval
  · rw [if_pos h2]
    have hlt : (endTime - current).toNat < interval.toNat := by omega
    rw [Nat.div_eq_of_lt hlt]
  · rw [if_neg h2]
    have hle : interval.toNat ≤ (endTime - current).toNat := by omega
    have hpos : 0 < interval.toNat := by omega
    rw [Nat.div_eq_sub_div hpos hle]
    have he : (endTime - current).toNat - interval.toNat =
        (endTime - (current + interval)).toNat := by omega
    rw [he]

/-- When every visited instant evaluates successfully, the sampling loop
returns exactly the values at the arithmetic progression of instants,
in order. -/
theorem sampleLoop_ok (calcP : Int → Except SgpErr SGPPosition) (endTime interval : Int)
    (hiv : 1 ≤ interval) (f : Int → SGPPosition) :
    ∀ (fuel : Nat) (current : Int), endTime - current < (fuel : Int) * interval →
      (∀ k : Nat, k < sampleCount endTime interval current →
        calcP (current + (k : Int) * interval) = .ok (f (current + (k : Int) * interval))) →
      sampleLoop calcP endTime interval current fuel =
        .ok ((List.range (sampleCount endTime interval current)).map
          (fun (k : Nat) => f (current + (k : Int) * interval))) := by
  intro fuel
  induction fuel with
  | zero =>
    intro current hf _
    have hend : endTime < current := by
      have h0 : ((0 : Nat) : Int) * interval = 0 := by push_cast; ring
      omega
    have hc : sampleCount endTime interval current = 0 := by
      unfold sampleCount
      rw [if_pos hend]
    rw [hc]
    rfl
  | succ fuel ih =>
    intro current hf hcalc
    by_cases hend : endTime < current
    · have hc : sampleCount endTime interval current = 0 := by
        unfold sampleCount
        rw [if_pos hend]
      rw [hc, sampleLoop, if_pos hend]
      rfl
    · have hrec := sampleCount_rec endTime interval current hiv hend
      have h0 : calcP current = .ok (f current) := by
        have h00 := hcalc 0 (by omega)
        simpa using h00
      have ihyp : ∀ k : Nat, k < sampleCount endTime interval (current + interval) →
          calcP ((current + interval) + (k : Int) * interval) =
            .ok (f ((current + interval) + (k : Int) * interval)) := by
        intro k hk
        have h1 := hcalc (k + 1) (by omega)
        have e : current + ((k + 1 : Nat) : Int) * interval =
            (current + interval) + (k : Int) * interval := by push_cast; ring
        rw [e] at h1
        exact h1
      have hbound : endTime - (current + interval) < (fuel : Int) * interval := by
        have e : ((fuel + 1 : Nat) : Int) * interval = (fuel : Int) * interval + interval := by
          push_cast; ring
        omega
      have IH := ih (current + interval) hbound ihyp
      rw [sampleLoop, if_neg hend, h0, IH, hrec, List.range_succ_eq_map]
      simp only [List.map_cons, List.map_map]
      congr 1
      congr 1
      · simp
      · apply List.map_congr_left
        intro a _
        simp only [Function.comp]
        congr 1
        push_cast
        ring

/-- When the first failing instant is the j-th sampled one, the loop
aborts there and returns that error wrapped with the instant. -/
theorem sampleLoop_err (calcP : Int → Except SgpErr SGPPosition) (endTime interval : Int)
    (hiv : 1 ≤ interval) (e : SgpErr) :
    ∀ (j : Nat) (fuel : Nat) (current : Int),
      endTime - current < (fuel : Int) * interval →
      current + (j : Int) * interval ≤ endTime →
      calcP (current + (j : Int) * interval) = .error e →
      (∀ k : Nat, k < j → ∃ p, calcP (current + (k : Int) * interval) = .ok p) →
      sampleLoop calcP endTime interval current fuel =
        .error (.failedAt (current + (j : Int) * interval) e) := by
  intro j
  induction j with
  | zero =>
    intro fuel current hf hj hfail _
    have hend : ¬ endTime < current := by
      have h0 : ((0 : Nat) : Int) * interval = 0 := by push_cast; ring
      omega
    have hfuel : 0 < fuel := by
      rcases Nat.eq_zero_or_pos fuel with h | h
      · subst h
        exfalso
        have h0 : ((0 : Nat) : Int) * interval = 0 := by push_cast; ring
        omega
      · exact h
    obtain ⟨fuel, rfl⟩ : ∃ m, fuel = m + 1 := ⟨fuel - 1, by omega⟩
    have hfail0 : calcP current = .error e := by simpa using hfail
    rw [sampleLoop, if_neg hend, hfail0]
    simp
  | succ j ih =>
    intro fuel current hf hj hfail hok
    have hjnn : (0 : Int) ≤ ((j + 1 : Nat) : Int) * interval := by positivity
    have hend : ¬ endTime < current := by omega
    have hfuel : 0 < fuel := by
      rcases Nat.eq_zero_or_pos fuel with h | h
      · subst h
        exfalso
        have h0 : ((0 : Nat) : Int) * interval = 0 := by push_cast; ring
        omega
      · exact h
    obtain ⟨fuel, rfl⟩ : ∃ m, fuel = m + 1 := ⟨fuel - 1, by omega⟩
    obtain ⟨p0, hp0⟩ := hok 0 (by omega)
    have hp0c : calcP current = .ok p0 := by simpa using hp0
    have hbound : endTime - (current + interval) < (fuel : Int) * interval := by
      have e2 : ((fuel + 1 : Nat) : Int) * interval = (fuel : Int) * interval + interval := by
        push_cast; ring
      omega
    have hshift : (current + interval) + (j : Int) * interval =
        current + ((j + 1 : Nat) : Int) * interval := by push_cast; ring
    have IH := ih fuel (current + interval) hbound
      (by rw [hshift]; exact hj)
      (by rw [hshift]; exact hfail)
      (by
        intro k hk
        obtain ⟨p, hp⟩ := hok (k + 1) (by omega)
        refine ⟨p, ?_⟩
        have e3 : (current + interval) + (k : Int) * interval =
            current + ((k + 1 : Nat) : Int) * interval := by push_cast; ring
        rw [e3]
        exact hp)
    rw [sampleLoop, if_neg hend, hp0c, IH, hshift]

/-- C1: corrected. The claimed two-check contract is incomplete: these two
lines satisfy both claimed checks (at least 4 and 3 whitespace tokens,
prefixes 1-space and 2-space), yet the propagation entry point rejects
them through a third structural condition, the 69-character minimum. -/
theorem claim1_counterexample :
    (gfields "1 a b c").length = 4 ∧ (gfields "2 a b").length = 3 ∧
    gStartsWith (gTrimSpace "1 a b c") "1 " = true ∧
    gStartsWith (gTrimSpace "2 a b") "2 " = true ∧
    CalculateSGP4Position env0 "1 a b c" "2 a b" 0 = .error .tleTooShort := by
  refine ⟨by decide, by decide, by decide, by decide, by rfl⟩

/-- C1 amended: the input-format contract has three structural checks, not
two. The propagation entry point succeeds exactly when both trimmed lines
are at least 69 characters and carry the 1-space and 2-space prefixes;
the parser entry point returns its failure record exactly when a
token-count minimum (4 on line 1, 3 on line 2) is violated, and performs
no prefix check at all. -/
theorem claim1_theorem (env : Sgp4Env) (l1 l2 : String) (t : Int) (one : String) :
    (isOkE (CalculateSGP4Position env l1 l2 t) = true ↔
      (69 ≤ glen (gTrimSpace l1) ∧ 69 ≤ glen (gTrimSpace l2) ∧
       gStartsWith (gTrimSpace l1) "1 " = true ∧
       gStartsWith (gTrimSpace l2) "2 " = true)) ∧
    (ConstructTLE one l1 l2 = failTLE one ↔
      ((gfields l1).length < 4 ∨ (gfields l2).length < 3)) := by
  constructor
  · simp only [CalculateSGP4Position]
    by_cases hA : glen (gTrimSpace l1) < 69 ∨ glen (gTrimSpace l2) < 69
    · rw [if_pos hA]
      simp only [isOkE]
      constructor
      · intro h
        exact absurd h (by decide)
      · intro ⟨a, b, _, _⟩
        omega
    · rw [if_neg hA]
      by_cases hB : gStartsWith (gTrimSpace l1) "1 " = true
      · rw [if_neg (by simpa using hB)]
        by_cases hC : gStartsWith (gTrimSpace l2) "2 " = true
        · rw [if_neg (by simpa using hC)]
          simp only [isOkE]
          constructor
          · intro _
            exact ⟨by omega, by omega, hB, hC⟩
          · intro _
            trivial
        · rw [if_pos (by simpa using hC)]
          simp only [isOkE]
          constructor
          · intro h
            exact absurd h (by decide)
          · intro ⟨_, _, _, c⟩
            exact absurd c hC
      · rw [if_pos (by simpa using hB)]
        simp only [isOkE]
        constructor
        · intro h
          exact absurd h (by decide)
        · intro ⟨_, _, b, _⟩
          exact absurd b hB
  · constructor
    · intro h
      by_contra hc
      push_neg at hc
      have hid := ConstructTLE_ID one l1 l2 (by omega) (by omega)
      have hne := gfields_ne_empty l1 _ (getD_mem (gfields l1) 2 (by omega))
      rw [h] at hid
      exact hne hid.symm
    · intro h
      exact ConstructTLE_fail one l1 l2 h

/-- C2: corrected. The claim says that for a combined token shorter than
11 characters the checksum remains at its zero default; in fact the
source sets the line-2 checksum from the final character of the token
whenever the token is non-empty, regardless of its length. Here the
token 15.72 has length 5 and the checksum comes out 2, not 0. -/
theorem claim2_counterexample :
    glen ((gfields "2 25544 51.6 247.4 0006703 130.5 325.0 15.72").getD 7 "") < 11 ∧
    (ConstructTLE "N" "1 25544U 98067A 24001.5"
      "2 25544 51.6 247.4 0006703 130.5 325.0 15.72").ChecksumTwo = 2 ∧
    (ConstructTLE "N" "1 25544U 98067A 24001.5"
      "2 25544 51.6 247.4 0006703 130.5 325.0 15.72").ChecksumTwo ≠ 0 := by
  refine ⟨by decide, by decide, by decide⟩

/-- C2 amended: for a present line-2 token 7, the mean motion is parsed
from the first 11 characters when the length is at least 11 and from the
whole token otherwise; the revolution number is parsed from characters
11..16 when the length is at least 16 and stays zero otherwise; and the
line-2 checksum is always taken from the final character of the token
(the token is never empty), also when the length is below 11. -/
theorem claim2_theorem (one two three : String)
    (h2 : 4 ≤ (gfields two).length) (h3 : 8 ≤ (gfields three).length) :
    (ConstructTLE one two three).MeanMotion =
      (if 11 ≤ glen ((gfields three).getD 7 "") then
        goParseFloat0 (gslice ((gfields three).getD 7 "") 0 11)
       else goParseFloat0 ((gfields three).getD 7 "")) ∧
    (ConstructTLE one two three).RevolutionNumber =
      (if 16 ≤ glen ((gfields three).getD 7 "") then
        goAtoi (gslice ((gfields three).getD 7 "") 11 16) else 0) ∧
    (ConstructTLE one two three).ChecksumTwo =
      goAtoi (gslice ((gfields three).getD 7 "")
        (glen ((gfields three).getD 7 "") - 1) (glen ((gfields three).getD 7 ""))) := by
  have htok : (gfields three).getD 7 "" ≠ "" :=
    gfields_ne_empty three _ (getD_mem (gfields three) 7 (by omega))
  have h0 : 0 < glen ((gfields three).getD 7 "") := glen_pos_of_ne _ htok
  simp only [ConstructTLE]
  rw [if_neg (by omega), if_neg (by omega)]
  obtain ⟨s1, s2, s3⟩ := meanMotionStep_spec (gfields three)
    (meanAnomalyStep (gfields three) (perigeeStep (gfields three) (eccentricityStep (gfields three) (raanStep (gfields three) (inclinationStep (gfields three) (catalogOverwriteStep (gfields three) (elementNumberStep (gfields two) (elsetTypeStep (gfields two) (bdragStep (gfields two) (secondDerivStep (gfields two) (firstDerivStep (gfields two) (epochStep (gfields two) (designatorStep (gfields two) (catalogStep (gfields two) ({ emptyTLE with CommonName := one }))))))))))))))) (by omega) h0
  refine ⟨s1, ?_, s3⟩
  rw [s2]
  by_cases h16 : 16 ≤ glen ((gfields three).getD 7 "")
  · rw [if_pos h16, if_pos h16]
  · rw [if_neg h16, if_neg h16]
    exact chainRev_zero one two three


/-- Under the concrete zero environment, every propagation at the valid
example lines succeeds with the zero position. -/
theorem calc_env0_ok (t : Int) : CalculateSGP4Position env0 L1ex L2ex t = .ok (posAt t) := by
  unfold CalculateSGP4Position
  rw [if_neg (by decide), if_neg (by decide), if_neg (by decide)]
  unfold env0 posAt goUnix
  norm_num

/-- C3: corrected. A concrete run in which the observer coincides with the
satellite: the computed range is exactly 0, yet the look-angle calculator
returns a successful result, not a DegenerateGeometryError (no such error
exists in the code). -/
theorem claim3_counterexample :
    CalculateSGP4PositionWithObserver env0 L1ex L2ex 0 ⟨0, 0, 0⟩ =
      .ok ⟨posAt 0, ⟨0, 0, 0, 0⟩⟩ ∧
    (⟨posAt 0, ⟨0, 0, 0, 0⟩⟩ : SGP4PositionResult).Angles.Range = 0 := by
  constructor
  · simp only [CalculateSGP4PositionWithObserver, calc_env0_ok]
    simp [env0]
  · rfl

/-- C3 amended: the look-angle calculator has no degenerate-geometry
guard. It fails exactly when, and exactly how, the underlying TLE-line
validation fails; for every observer, including one coincident with the
satellite, a validated input yields a successful result with the
unguarded angles and range. -/
theorem claim3_theorem (env : Sgp4Env) (l1 l2 : String) (t : Int)
    (obs : ObserverPosition) (e : SgpErr) :
    CalculateSGP4PositionWithObserver env l1 l2 t obs = .error e ↔
      CalculateSGP4Position env l1 l2 t = .error e := by
  unfold CalculateSGP4PositionWithObserver
  cases h : CalculateSGP4Position env l1 l2 t with
  | error e2 => simp
  | ok p => simp

/-- C4: confirmed. On an invalid range (start after end, or non-positive
interval) the sampler fails immediately with the matching range error,
and the result does not depend on the propagation environment at all,
which formalizes that no propagation call is made. -/
theorem claim4_theorem (env env2 : Sgp4Env) (l1 l2 : String) (s e iv : Int)
    (h : e < s ∨ iv ≤ 0) :
    (CalculateSGP4Positions env l1 l2 s e iv =
      (if e < s then .error .startAfterEnd else .error .intervalNotPositive)) ∧
    CalculateSGP4Positions env l1 l2 s e iv =
      CalculateSGP4Positions env2 l1 l2 s e iv := by
  constructor <;>
    (unfold CalculateSGP4Positions
     split_ifs <;> first | rfl | (exfalso; rcases h with h | h <;> omega))

/-- C4 witness at a concrete invalid range. -/
theorem claim4_witness :
    CalculateSGP4Positions env0 L1ex L2ex 1 0 1 = .error .startAfterEnd := by
  have h := claim4_theorem env0 env0 L1ex L2ex 1 0 1 (Or.inl (by omega))
  simpa using h.1

/-- C5: confirmed. On a valid range in which every sampled propagation
succeeds, the sampler returns exactly the values at start,
start+interval, start+2*interval, ... for every instant up to and
including the end, in that order. -/
theorem claim5_theorem (env : Sgp4Env) (l1 l2 : String) (s e iv : Int)
    (f : Int → SGPPosition) (hse : s ≤ e) (hiv : 0 < iv)
    (hcalc : ∀ t ∈ instants s e iv, CalculateSGP4Position env l1 l2 t = .ok (f t)) :
    CalculateSGP4Positions env l1 l2 s e iv = .ok ((instants s e iv).map f) := by
  unfold CalculateSGP4Positions
  rw [if_neg (by omega), if_neg (by omega)]
  have hiv1 : (1 : Int) ≤ iv := hiv
  have hcount : sampleCount e iv s = numSamples s e iv := by
    unfold sampleCount numSamples
    rw [if_neg (by omega)]
  have hbound : e - s < (((e - s).toNat + 1 : Nat) : Int) * iv := by
    have h1 : ((e - s).toNat : Int) = e - s := Int.toNat_of_nonneg (by omega)
    have h2 : (((e - s).toNat + 1 : Nat) : Int) = (e - s) + 1 := by push_cast; omega
    rw [h2]
    have h3 : ((e - s) + 1) * 1 ≤ ((e - s) + 1) * iv :=
      mul_le_mul_of_nonneg_left hiv1 (by omega)
    omega
  have hc : ∀ k : Nat, k < sampleCount e iv s →
      CalculateSGP4Position env l1 l2 (s + (k : Int) * iv) =
        .ok (f (s + (k : Int) * iv)) := by
    intro k hk
    apply hcalc
    unfold instants
    rw [hcount] at hk
    exact List.mem_map.mpr ⟨k, List.mem_range.mpr hk, rfl⟩
  have hloop := sampleLoop_ok (fun t => CalculateSGP4Position env l1 l2 t) e iv hiv1 f
    ((e - s).toNat + 1) s hbound hc
  rw [hloop, hcount]
  unfold instants
  rw [List.map_map]
  rfl

/-- C5 witness: one sample for start = end with a one-minute interval,
and exactly two samples for a one-hour range at a one-hour interval
(both bounds inclusive), instants in nanoseconds. -/
theorem claim5_witness :
    CalculateSGP4Positions env0 L1ex L2ex 0 0 60000000000 = .ok [posAt 0] ∧
    CalculateSGP4Positions env0 L1ex L2ex 0 3600000000000 3600000000000 =
      .ok [posAt 0, posAt 3600000000000] := by
  constructor
  · have hi : instants 0 0 60000000000 = [0] := by decide
    have h := claim5_theorem env0 L1ex L2ex 0 0 60000000000 posAt (by omega) (by omega)
      (by
        intro t ht
        rw [hi] at ht
        simp only [List.mem_singleton] at ht
        subst ht
        exact calc_env0_ok 0)
    rw [h, hi]
    rfl
  · have hi : instants 0 3600000000000 3600000000000 = [0, 3600000000000] := by decide
    have h := claim5_theorem env0 L1ex L2ex 0 3600000000000 3600000000000 posAt
      (by omega) (by omega)
      (by
        intro t ht
        rw [hi] at ht
        simp only [List.mem_cons, List.not_mem_nil, or_false] at ht
        rcases ht with rfl | rfl
        · exact calc_env0_ok 0
        · exact calc_env0_ok 3600000000000)
    rw [h, hi]
    rfl

/-- C6: confirmed. When the propagation first fails at the j-th sampled
instant (all earlier sampled instants succeed), the sampler aborts and
returns that error wrapped with the failing instant; no list of
successful prefix samples is returned, since the error constructor
carries none. -/
theorem claim6_theorem (env : Sgp4Env) (l1 l2 : String) (s e iv : Int)
    (j : Nat) (err : SgpErr) (hse : s ≤ e) (hiv : 0 < iv)
    (hj : s + (j : Int) * iv ≤ e)
    (hfail : CalculateSGP4Position env l1 l2 (s + (j : Int) * iv) = .error err)
    (hok : ∀ k : Nat, k < j →
      ∃ p, CalculateSGP4Position env l1 l2 (s + (k : Int) * iv) = .ok p) :
    CalculateSGP4Positions env l1 l2 s e iv =
      .error (.failedAt (s + (j : Int) * iv) err) := by
  unfold CalculateSGP4Positions
  rw [if_neg (by omega), if_neg (by omega)]
  have hiv1 : (1 : Int) ≤ iv := hiv
  have hbound : e - s < (((e - s).toNat + 1 : Nat) : Int) * iv := by
    have h1 : ((e - s).toNat : Int) = e - s := Int.toNat_of_nonneg (by omega)
    have h2 : (((e - s).toNat + 1 : Nat) : Int) = (e - s) + 1 := by push_cast; omega
    rw [h2]
    have h3 : ((e - s) + 1) * 1 ≤ ((e - s) + 1) * iv :=
      mul_le_mul_of_nonneg_left hiv1 (by omega)
    omega
  exact sampleLoop_err (fun t => CalculateSGP4Position env l1 l2 t) e iv hiv1 err j
    ((e - s).toNat + 1) s hbound hj hfail hok

/-- C6 witness: a line too short to validate fails at the very first
sampled instant and the sampler returns the wrapped error and no
trajectory. -/
theorem claim6_witness :
    CalculateSGP4Positions env0 "x" "y" 0 0 1 =
      .error (.failedAt 0 .tleTooShort) := by
  have h := claim6_theorem env0 "x" "y" 0 0 1 0 .tleTooShort (by omega) (by omega)
    (by norm_num)
    (by
      have e0 : (0 : Int) + ((0 : Nat) : Int) * 1 = 0 := by norm_num
      rw [e0]
      rfl)
    (by
      intro k hk
      omega)
  simpa using h

/-- C7: corrected. The claim says every string field of the failure
record is empty; in fact the common-name field is set to the name
argument before the token-count checks run, so a failing parse of line
"1" still returns a record whose common name is the non-empty name. -/
theorem claim7_counterexample :
    (gfields "1").length < 4 ∧
    (ConstructTLE "ISS" "1" "2").CommonName = "ISS" ∧
    ("ISS" : String) ≠ "" := by
  refine ⟨by decide, rfl, by decide⟩

/-- C7 amended: on a token-count failure the parser returns the failure
record in which every numeric field is zero and every string field is
empty except the common name, which holds the name argument verbatim. -/
theorem claim7_theorem (one two three : String)
    (h : (gfields two).length < 4 ∨ (gfields three).length < 3) :
    ConstructTLE one two three = failTLE one :=
  ConstructTLE_fail one two three h

/-- C7 witness at a concrete too-short input. -/
theorem claim7_witness :
    ((gfields "1").length < 4 ∨ (gfields "2").length < 3) ∧
    ConstructTLE "ISS" "1" "2" = failTLE "ISS" :=
  ⟨by decide, claim7_theorem "ISS" "1" "2" (by decide)⟩

/-- C8: corrected. A record with catalog number 0 and epoch exactly 0.0
that passes the token-count check is NOT classified as a parse failure:
the designator token is non-empty, so the three-field heuristic cannot
fire and the record is accepted, contrary to the claimed
misclassification. -/
theorem claim8_counterexample :
    (ConstructTLE "ISS" "1 0U 98067A 0.0" "2 0 51.6").ElementSetEpoch = 0 ∧
    (ConstructTLE "ISS" "1 0U 98067A 0.0" "2 0 51.6").SatelliteCatalogNumber = 0 ∧
    parsingFailed "1 0U 98067A 0.0" "2 0 51.6"
      (ConstructTLE "ISS" "1 0U 98067A 0.0" "2 0 51.6") = false := by
  refine ⟨?_, by decide, ?_⟩
  · rw [show (ConstructTLE "ISS" "1 0U 98067A 0.0" "2 0 51.6").ElementSetEpoch =
      goParseFloat0 "0.0" from rfl]
    rw [show goParseFloat0 "0.0" =
      (digitsVal ['0'] : ℚ) + (digitsVal ['0'] : ℚ) / powTen 1 from rfl]
    norm_num [digitsVal, powTen, show '0'.toNat = 48 from rfl]
  · unfold parsingFailed
    rw [if_neg (by decide), if_neg ?hng]
    case hng =>
      intro ⟨_, hid, _⟩
      exact absurd hid (by decide)

/-- C8 amended: under the caller classification, a record is marked a
parse failure exactly when a token-count minimum is violated; the
three-field heuristic never fires for a record that passed the
token-count check, because the designator field is then always a
non-empty token, so no technically valid record (epoch 0.0 included) is
ever misclassified. -/
theorem claim8_theorem (name l1 l2 : String) :
    parsingFailed l1 l2 (ConstructTLE name l1 l2) = true ↔
      ((gfields l1).length < 4 ∨ (gfields l2).length < 3) := by
  unfold parsingFailed
  by_cases h : (gfields l1).length < 4 ∨ (gfields l2).length < 3
  · rw [if_pos h]
    simp [h]
  · rw [if_neg h]
    push_neg at h
    have hid := ConstructTLE_ID name l1 l2 (by omega) (by omega)
    have hne := gfields_ne_empty l1 _ (getD_mem (gfields l1) 2 (by omega))
    rw [if_neg ?hno]
    case hno =>
      intro ⟨_, hid2, _⟩
      rw [hid] at hid2
      exact hne hid2
    simp
    omega

/-- C9: confirmed. Whenever both token-count minimums hold, the returned
catalog number is the one parsed from line-2 token 1 with the zero
default on conversion failure, for every line-1 content: the line-2
value unconditionally overwrites the line-1 one and no cross-validation
happens. -/
theorem claim9_theorem (one two three : String)
    (h1 : 4 ≤ (gfields two).length) (h2 : 3 ≤ (gfields three).length) :
    (ConstructTLE one two three).SatelliteCatalogNumber =
      goAtoi ((gfields three).getD 1 "") :=
  ConstructTLE_cat one two three h1 h2

/-- C9 witness: line 1 carries catalog 11111, line 2 carries 25544; the
returned record holds 25544. -/
theorem claim9_witness :
    (ConstructTLE "ISS" "1 11111U 98067A 24001.5" "2 25544 51.6").SatelliteCatalogNumber
      = 25544 ∧
    goAtoi (gslice ((gfields "1 11111U 98067A 24001.5").getD 1 "") 0 5) = 11111 := by
  have h9 := claim9_theorem "ISS" "1 11111U 98067A 24001.5" "2 25544 51.6"
    (by decide) (by decide)
  constructor
  · rw [h9]
    decide
  · decide

/-- C10: confirmed. Under the Go panic semantics, in which every string
index, string slice and array access is checked, the parser never
panics on any input triple and always agrees with the total parser; and
by construction every failed per-field numeric conversion contributes
only that field's zero default. -/
theorem claim10_theorem (one two three : String) :
    ConstructTLEp one two three = some (ConstructTLE one two three) :=
  constructTLEp_eq one two three

/-- C2 witness: a full-length combined token 15.70406856328906 yields
revolution number 32890 from characters 11..16 and checksum 6 from the
final character. -/
theorem claim2_witness :
    (ConstructTLE "ISS" "1 25544U 98067A 24001.5"
      "2 25544 51.6 247.4 0006703 130.5 325.0 15.70406856328906").RevolutionNumber
      = 32890 ∧
    (ConstructTLE "ISS" "1 25544U 98067A 24001.5"
      "2 25544 51.6 247.4 0006703 130.5 325.0 15.70406856328906").ChecksumTwo = 6 := by
  have h := claim2_theorem "ISS" "1 25544U 98067A 24001.5"
    "2 25544 51.6 247.4 0006703 130.5 325.0 15.70406856328906" (by decide) (by decide)
  refine ⟨?_, ?_⟩
  · rw [h.2.1]
    decide
  · rw [h.2.2]
    decide
